import Mathlib

/-!
Shallow embedding of `src/src/zeroD/IdealGasReactor.cpp` (Cantera's
zero-dimensional ideal-gas reactor) and proofs of the spec's claims about it.

Machine doubles are modelled as rationals (`ℚ`); C++ exceptions are modelled
by `Except String`, with the mutated object returned alongside the outcome so
that state changes made before a throw persist, as they do in C++.
Collaborators that live outside this file's source (the thermodynamic property
evaluator `ThermoPhase`, the kinetics evaluator, flow devices, walls, and the
`Reactor` base class) are modelled from the spec where noted.
-/

namespace Cantera

/-- Low-level thermodynamic state snapshot (`m_state` / `saveState` /
`restoreState`).  The spec treats it as an opaque value type holding the
property evaluator's current state; we model it by the quantities the code
reads back: temperature, density and the (unnormalized) mass fractions. -/
structure ThermoState where
  temperature : ℚ
  density : ℚ
  massFractions : List ℚ
deriving DecidableEq

/-- Modelled from the spec: the external property evaluator (`ThermoPhase`).
It carries a type tag used by the compatibility gate, a current state, the
molecular weights, and the thermodynamic property queries the reactor makes,
each a function of the current state. -/
structure ThermoPhase where
  typeTag : String
  state : ThermoState
  molecularWeights : List ℚ
  partialMolarIntEnergiesF : ThermoState → List ℚ
  enthalpyMassF : ThermoState → ℚ
  pressureF : ThermoState → ℚ
  intEnergyMassF : ThermoState → ℚ
  cvMassF : ThermoState → ℚ
  cpRF : ThermoState → List ℚ
  dCpRdTF : ThermoState → List ℚ

/-- `ThermoPhase::restoreState`: set the evaluator's state from a snapshot. -/
def ThermoPhase.restoreState (th : ThermoPhase) (s : ThermoState) : ThermoPhase :=
  { th with state := s }

/-- `ThermoPhase::saveState`: snapshot the evaluator's current state. -/
def ThermoPhase.saveState (th : ThermoPhase) : ThermoState :=
  th.state

/-- `ThermoPhase::setMassFractions_NoNorm`: overwrite the mass fractions
without renormalization. -/
def ThermoPhase.setMassFractions_NoNorm (th : ThermoPhase) (Y : List ℚ) : ThermoPhase :=
  { th with state := { th.state with massFractions := Y } }

/-- `ThermoPhase::setState_TR`: set temperature and density together. -/
def ThermoPhase.setState_TR (th : ThermoPhase) (T rho : ℚ) : ThermoPhase :=
  { th with state := { th.state with temperature := T, density := rho } }

/-- Modelled from the spec: the external kinetics evaluator.  Its two queries
may fail (a C++ call can throw); a failure propagates as an exception. -/
structure Kinetics where
  getNetProductionRates : Except String (List ℚ)
  getNetProductionRateTDerivatives : Except String (List ℚ)

/-- Modelled from the spec: a flow device (inlet or outlet connector).
`massFlowRate` is a query at a given time and may fail. -/
structure FlowDevice where
  massFlowRate : ℚ → Except String ℚ
  enthalpy_mass : ℚ
  outletSpeciesMassFlowRate : ℕ → ℚ

/-- Modelled from the spec: a wall, mediating heat (`qdot`) and volume change
(`vdot`) and optionally hosting surface chemistry: per-gas-species production
contributions (`sdotContrib`), a net gas-phase mass flux (`mdotContrib`),
derivative entries for its own coverage slots (`coverageDeriv`), the initial
coverages reported by `getState`, and its current coverage state pushed by
`updateState`. -/
structure Wall where
  qdot : ℚ → ℚ
  vdot : ℚ → ℚ
  nSurfSpecies : ℕ
  initialCoverages : List ℚ
  sdotContrib : ℚ → List ℚ
  mdotContrib : ℚ → ℚ
  coverageDeriv : ℚ → List ℚ
  surfState : List ℚ

/-- The reactor object: the fields of `IdealGasReactor` and of its `Reactor`
base class that the source file reads or writes.  `thermo` is the `m_thermo`
pointer (`none` when unset); `sensApplied` models, from the spec, whether the
sensitivity perturbation of `applySensitivity` is currently applied to the
parameters. -/
structure Reactor where
  thermo : Option ThermoPhase
  state : ThermoState
  mass : ℚ
  vol : ℚ
  nsp : ℕ
  chem : Bool
  energy : Bool
  wdot : List ℚ
  sdot : List ℚ
  uk : List ℚ
  work : List ℚ
  pressure : ℚ
  enthalpy : ℚ
  intEnergy : ℚ
  Q : ℚ
  vdot : ℚ
  kin : Kinetics
  inlet : List FlowDevice
  outlet : List FlowDevice
  walls : List Wall
  speciesNames : List String
  sensApplied : Bool

/-- The `npos` not-found sentinel (`std::string::npos` / `Cantera::npos`,
the maximum `size_t` value). -/
def npos : ℕ := 18446744073709551615

/-- `speciesIndex(nm)` (delegated to the phase): index of the first species
with that name, `npos` when absent. -/
def speciesIndex (r : Reactor) (nm : String) : ℕ :=
  if nm ∈ r.speciesNames then r.speciesNames.indexOf nm else npos

/-- `IdealGasReactor::componentIndex` (lines 210-224): a species-name match
returns its index plus 3; else the reserved names mass/volume/temperature map
to 0/1/2; else `npos`. -/
def componentIndex (r : Reactor) (nm : String) : ℕ :=
  let k := speciesIndex r nm
  if k ≠ npos then k + 3
  else if nm = "mass" then 0
  else if nm = "volume" then 1
  else if nm = "temperature" then 2
  else npos

/-- Modelled from the spec: `Reactor::componentName` (base class, not in
`src/`) names entries 3..3+K by the gas species names; offsets beyond are
surface-species names (not needed by any claim, left as the empty string),
and 0/1 name the mass and volume slots. -/
def baseComponentName (r : Reactor) (k : ℕ) : String :=
  if 3 ≤ k ∧ k < 3 + r.nsp then r.speciesNames.getD (k - 3) ""
  else if k = 0 then "mass"
  else if k = 1 then "volume"
  else ""

/-- `IdealGasReactor::componentName` (lines 226-232): `"temperature"` for
k = 2, otherwise the base-class naming. -/
def componentName (r : Reactor) (k : ℕ) : String :=
  if k = 2 then "temperature" else baseComponentName r k

/-- Modelled from the spec: `Reactor::setThermoMgr` (base class, not in
`src/`) stores the property-evaluator reference in the reactor. -/
def baseSetThermoMgr (r : Reactor) (th : ThermoPhase) : Reactor :=
  { r with thermo := some th }

/-- `IdealGasReactor::setThermoMgr` (lines 16-25): reject any evaluator whose
type tag is not `"IdealGas"` with a `CanteraError`, otherwise delegate to the
base class.  The mutated-or-not reactor is returned next to the outcome. -/
def setThermoMgr (r : Reactor) (th : ThermoPhase) : Reactor × Except String Unit :=
  if th.typeTag ≠ "IdealGas" then
    (r, Except.error "IdealGasReactor::setThermoMgr: Incompatible phase type provided")
  else
    (baseSetThermoMgr r th, Except.ok ())

/-- Modelled from the spec: `Reactor::getSurfaceInitialConditions` (base
class, not in `src/`) writes each attached wall's initial surface coverages,
in wall-registration order, each block as long as that wall's own
surface-species count. -/
def getSurfaceInitialConditions (r : Reactor) : List ℚ :=
  (r.walls.map (fun w => w.initialCoverages)).flatten

/-- `IdealGasReactor::getState` (lines 27-51): fail when no property
evaluator is attached; otherwise restore the evaluator from the cached
snapshot, set `m_mass` to density × volume, and write
`[mass, volume, temperature] ++ massFractions ++ surface coverages`.
The mutated reactor and the produced vector are returned together. -/
def getState (r : Reactor) : Reactor × Except String (List ℚ) :=
  match r.thermo with
  | none => (r, Except.error "getState: Error: reactor is empty.")
  | some th =>
    let th' := th.restoreState r.state
    let m := th'.state.density * r.vol
    let r' := { r with thermo := some th', mass := m }
    (r', Except.ok ((m :: r.vol :: th'.state.temperature :: th'.state.massFractions)
      ++ getSurfaceInitialConditions r))

/-- Modelled from the spec: `Reactor::updateSurfaceState` (base class, not in
`src/`) dispatches the surface-coverage suffix to each wall's surface-state
updater in registration order, each wall consuming its own surface-species
count of entries. -/
def updateSurfaceState : List Wall → List ℚ → List Wall
  | [], _ => []
  | w :: ws, s => { w with surfState := s.take w.nSurfSpecies }
      :: updateSurfaceState ws (s.drop w.nSurfSpecies)

/-- `IdealGasReactor::updateState` (lines 59-75): read mass and volume,
push the unnormalized mass fractions, set temperature and density together,
dispatch the coverage suffix to the walls, then recompute the cached
enthalpy/pressure/internal-energy and snapshot the evaluator state.
A null `m_thermo` dereference is undefined behavior in the source; it is
modelled as leaving the reactor unchanged (every claim attaches one). -/
def updateState (r : Reactor) (y : List ℚ) : Reactor :=
  match r.thermo with
  | none => r
  | some th =>
    let m := y.getD 0 0
    let v := y.getD 1 0
    let th1 := th.setMassFractions_NoNorm ((y.drop 3).take r.nsp)
    let th2 := th1.setState_TR (y.getD 2 0) (m / v)
    let walls' := updateSurfaceState r.walls (y.drop (r.nsp + 3))
    { r with thermo := some th2, mass := m, vol := v, walls := walls',
             enthalpy := th2.enthalpyMassF th2.state,
             pressure := th2.pressureF th2.state,
             intEnergy := th2.intEnergyMassF th2.state,
             state := th2.saveState }

/-- Modelled from the spec: `Reactor::applySensitivity` (base class, not in
`src/`) applies the scoped sensitivity perturbation to the parameters; we
record only the fact that it is currently applied. -/
def applySensitivity (r : Reactor) (_params : List ℚ) : Reactor :=
  { r with sensApplied := true }

/-- Modelled from the spec: `Reactor::resetSensitivity` (base class, not in
`src/`) reverts the sensitivity perturbation. -/
def resetSensitivity (r : Reactor) (_params : List ℚ) : Reactor :=
  { r with sensApplied := false }

/-- Modelled from the spec: `Reactor::evalWalls` (base class, not in `src/`)
accumulates the walls' heat-flow and volume-change contributions for this
time into `m_Q` and `m_vdot`. -/
def evalWalls (r : Reactor) (time : ℚ) : Reactor :=
  { r with Q := (r.walls.map (fun w => w.qdot time)).sum,
           vdot := (r.walls.map (fun w => w.vdot time)).sum }

/-- Pointwise sum of two per-species lists (surface contributions are
accumulated into the zero-initialized `m_sdot` buffer). -/
def addList : List ℚ → List ℚ → List ℚ
  | xs, [] => xs
  | [], _ => []
  | x :: xs, b :: bs => (x + b) :: addList xs bs

/-- Modelled from the spec: `Reactor::evalSurfaces` (base class, not in
`src/`) zeroes `m_sdot`, accumulates each wall's heterogeneous per-species
production contributions, writes each wall's coverage-derivative block into
the surface slots, and returns the net surface-to-gas mass flux.  Result:
(new `m_sdot`, coverage-derivative suffix, net mass flux). -/
def evalSurfaces (r : Reactor) (time : ℚ) : List ℚ × List ℚ × ℚ :=
  (r.walls.foldl (fun acc w => addList acc (w.sdotContrib time)) (List.replicate r.nsp 0),
   (r.walls.map (fun w => w.coverageDeriv time)).flatten,
   (r.walls.map (fun w => w.mdotContrib time)).sum)

/-- The outlet loop of `evalEqs` (lines 112-116): for each outlet query the
mass flow rate, subtract it from `dmdt` and subtract the flow-work term from
the energy accumulator; a failing query aborts the loop. -/
def outletLoop (time pressure vol mass : ℚ) :
    List FlowDevice → ℚ × ℚ → Except String (ℚ × ℚ)
  | [], acc => Except.ok acc
  | o :: os, (dmdt, mcv) =>
    match o.massFlowRate time with
    | Except.error e => Except.error e
    | Except.ok mdot_out =>
        outletLoop time pressure vol mass os
          (dmdt - mdot_out, mcv - mdot_out * pressure * vol / mass)

/-- The inlet loop of `evalEqs` (lines 119-132): for each inlet query the
mass flow rate, add it to `dmdt`, add the carried enthalpy to the energy
accumulator, and for each species add the inflow/dilution term to its
mass-fraction derivative and subtract its carried internal energy from the
energy accumulator; a failing query aborts the loop. -/
def inletLoop (time mass : ℚ) (Y mw uk : List ℚ) (nsp : ℕ) :
    List FlowDevice → ℚ × ℚ × List ℚ → Except String (ℚ × ℚ × List ℚ)
  | [], acc => Except.ok acc
  | inl :: is, (dmdt, mcv, dYdt) =>
    match inl.massFlowRate time with
    | Except.error e => Except.error e
    | Except.ok mdot_in =>
        let dYdt' := (List.range nsp).map (fun n =>
          dYdt.getD n 0 + (inl.outletSpeciesMassFlowRate n - mdot_in * Y.getD n 0) / mass)
        let mcv' := mcv + inl.enthalpy_mass * mdot_in
          - ((List.range nsp).map (fun n =>
              uk.getD n 0 / mw.getD n 0 * inl.outletSpeciesMassFlowRate n)).sum
        inletLoop time mass Y mw uk nsp is (dmdt + mdot_in, mcv', dYdt')

/-- `IdealGasReactor::evalEqs` (lines 77-143): restore the cached snapshot,
apply the sensitivity perturbation, fetch the per-species properties, fetch
homogeneous production rates when chemistry is enabled (otherwise the prior
`m_wdot` buffer contents are used, as written), evaluate walls and surfaces,
accumulate the mass/energy/species balances over the outlet and inlet
devices, write the derivative vector, and finally revert the perturbation.
The state mutated so far is returned next to the outcome, so an error thrown
by a collaborator propagates with the mutations (including the applied
perturbation) in place, exactly as in the straight-line C++.  The `y`
argument is never read by the source. -/
def evalEqs (r : Reactor) (time : ℚ) (y : List ℚ) (params : List ℚ) :
    Reactor × Except String (List ℚ) :=
  match r.thermo with
  | none => (r, Except.error "evalEqs: no property evaluator attached")
  | some th =>
    let th' := th.restoreState r.state
    let r1 := applySensitivity { r with thermo := some th' } params
    let uk := th'.partialMolarIntEnergiesF th'.state
    let mw := th'.molecularWeights
    let Y := th'.state.massFractions
    let r2 := { r1 with uk := uk }
    match (if r2.chem then r2.kin.getNetProductionRates else Except.ok r2.wdot) with
    | Except.error e => (r2, Except.error e)
    | Except.ok wdot =>
      let r3 := evalWalls { r2 with wdot := wdot } time
      let (sdot, surfDeriv, mdot_surf) := evalSurfaces r3 time
      let r4 := { r3 with sdot := sdot }
      let mcv0 : ℚ := -r4.pressure * r4.vdot - r4.Q
        - ((List.range r4.nsp).map (fun n =>
            wdot.getD n 0 * uk.getD n 0 * r4.vol + sdot.getD n 0 * uk.getD n 0)).sum
      let dYdt0 := (List.range r4.nsp).map (fun n =>
          (wdot.getD n 0 * r4.vol + sdot.getD n 0) * mw.getD n 0 / r4.mass
          - Y.getD n 0 * mdot_surf / r4.mass)
      match outletLoop time r4.pressure r4.vol r4.mass r4.outlet (mdot_surf, mcv0) with
      | Except.error e => (r4, Except.error e)
      | Except.ok (dmdt1, mcv1) =>
        match inletLoop time r4.mass Y mw uk r4.nsp r4.inlet (dmdt1, mcv1, dYdt0) with
        | Except.error e => (r4, Except.error e)
        | Except.ok (dmdt2, mcv2, dYdt1) =>
          let Tdot := if r4.energy then mcv2 / (r4.mass * th'.cvMassF th'.state) else 0
          (resetSensitivity r4 params,
           Except.ok ((dmdt2 :: r4.vdot :: Tdot :: dYdt1) ++ surfDeriv))

/-- `GasConstant` from `cantera/base/ct_defs.h` (not in `src/`),
in J/kmol/K. -/
def GasConstant : ℚ := 8314.4621

/-- A single store `J(i, j) = v` into the Jacobian accessor. -/
def upd (J : ℕ → ℕ → ℚ) (i j : ℕ) (v : ℚ) : ℕ → ℕ → ℚ :=
  fun a b => if a = i ∧ b = j then v else J a b

/-- The `dcvRdT` accumulation of `evalJacEqs` (lines 158-160), exactly as the
source writes it: each species i contributes
`dCvRdT[i] / mw[i] * y[start + i]`. -/
def dcvRdTsum (dCvRdT mw : List ℚ) (y : ℕ → ℚ) (start nsp : ℕ) : ℚ :=
  ((List.range nsp).map (fun i => dCvRdT.getD i 0 / mw.getD i 0 * y (start + i))).sum

/-- The same accumulation as the spec describes it: each species k is
weighted by its mass-fraction entry of the state vector, which sits at
offset `start + 3 + k` in the packed layout.  Kept separate from
`dcvRdTsum` for comparison with the source. -/
def dcvRdTsumSpec (dCvRdT mw : List ℚ) (y : ℕ → ℚ) (start nsp : ℕ) : ℚ :=
  ((List.range nsp).map (fun i => dCvRdT.getD i 0 / mw.getD i 0 * y (start + 3 + i))).sum

/-- `IdealGasReactor::evalJacEqs` (lines 146-208): compute the temperature
diagonal entry and the species-row temperature-column entries of the
network Jacobian at the reactor's base offset `start`; the other blocks are
acknowledged in the source but not populated.  The final (reactor, Jacobian)
pair is returned in both outcomes: a collaborator failure propagates with
the Jacobian untouched, since both stores happen after the fallible calls. -/
def evalJacEqs (r : Reactor) (time : ℚ) (y : ℕ → ℚ) (jac : ℕ → ℕ → ℚ)
    (start : ℕ) : (Reactor × (ℕ → ℕ → ℚ)) × Except String Unit :=
  match r.thermo with
  | none => ((r, jac), Except.error "evalJacEqs: no property evaluator attached")
  | some th =>
    let dCvRdT := th.dCpRdTF th.state
    let mw := th.molecularWeights
    let RT := GasConstant * th.state.temperature
    let dcvRdT := dcvRdTsum dCvRdT mw y start r.nsp
    let inv_mcv := 1 / (r.mass * th.cvMassF th.state)
    let work := th.cpRF th.state
    let uk := th.partialMolarIntEnergiesF th.state
    let r1 := { r with work := work, uk := uk }
    match r1.kin.getNetProductionRates with
    | Except.error e => ((r1, jac), Except.error e)
    | Except.ok wdot =>
      let r2 := { r1 with wdot := wdot }
      match r2.kin.getNetProductionRateTDerivatives with
      | Except.error e => ((r2, jac), Except.error e)
      | Except.ok dwdotdT =>
        let df1dT := (((List.range r2.nsp).map (fun i =>
            (work.getD i 0 - 1 - uk.getD i 0 * dcvRdT / th.cvMassF th.state
              - uk.getD i 0 / RT) * (wdot.getD i 0 * r2.vol + r2.sdot.getD i 0))).sum)
            * inv_mcv * GasConstant
        let df1dT_2t := (((List.range r2.nsp).map (fun i =>
            uk.getD i 0 * (r2.vol * dwdotdT.getD i 0))).sum) * inv_mcv
        let T_ind := start + 2
        let J1 := upd jac T_ind T_ind (df1dT - df1dT_2t)
        let T := th.state.temperature
        let J2 := (List.range r2.nsp).foldl (fun J i =>
            upd J (start + 3 + i) T_ind
              (mw.getD i 0 / r2.mass *
                ((r2.vol * wdot.getD i 0 + r2.sdot.getD i 0) / T + dwdotdT.getD i 0))) J1
        ((r2, J2), Except.ok ())

/-! ### Concrete fixtures used by witnesses and counterexamples -/

/-- A concrete ideal-gas property evaluator over two species. -/
def thEx : ThermoPhase where
  typeTag := "IdealGas"
  state := { temperature := 300, density := 2, massFractions := [1/2, 1/2] }
  molecularWeights := [2, 32]
  partialMolarIntEnergiesF := fun _ => [5, 7]
  enthalpyMassF := fun _ => 11
  pressureF := fun _ => 101325
  intEnergyMassF := fun _ => 9
  cvMassF := fun _ => 3
  cpRF := fun _ => [4, 4]
  dCpRdTF := fun _ => [1, 1]

/-- A concrete reactor with the evaluator attached, two gas species, no
inlets, outlets or walls, and a kinetics evaluator reporting zero rates. -/
def rEx : Reactor where
  thermo := some thEx
  state := { temperature := 300, density := 2, massFractions := [1/2, 1/2] }
  mass := 1
  vol := 1
  nsp := 2
  chem := true
  energy := true
  wdot := [0, 0]
  sdot := [0, 0]
  uk := [0, 0]
  work := [0, 0]
  pressure := 101325
  enthalpy := 0
  intEnergy := 0
  Q := 0
  vdot := 0
  kin := { getNetProductionRates := Except.ok [0, 0],
           getNetProductionRateTDerivatives := Except.ok [0, 0] }
  inlet := []
  outlet := []
  walls := []
  speciesNames := ["H2", "O2"]
  sensApplied := false

/-- A kinetics evaluator whose production-rate query fails. -/
def kinFail : Kinetics where
  getNetProductionRates := Except.error "kinetics failure"
  getNetProductionRateTDerivatives := Except.error "kinetics failure"

/-! ### Claims -/

/-- C2: attaching a property evaluator whose type tag is not `"IdealGas"`
raises the configuration error and leaves the reactor unchanged (in
particular its property-evaluator reference); attaching one whose tag is
`"IdealGas"` succeeds and sets the reference. -/
theorem C2_thermo_gate (r : Reactor) (th : ThermoPhase) :
    (th.typeTag ≠ "IdealGas" →
      setThermoMgr r th =
        (r, Except.error "IdealGasReactor::setThermoMgr: Incompatible phase type provided")) ∧
    (th.typeTag = "IdealGas" →
      setThermoMgr r th = ({ r with thermo := some th }, Except.ok ())) := by
  constructor <;> intro h <;> simp [setThermoMgr, baseSetThermoMgr, h]

/-- Witness for C2 at a rejected and at an accepted evaluator. -/
theorem C2_thermo_gate_witness :
    setThermoMgr rEx { thEx with typeTag := "Surface" } =
      (rEx, Except.error "IdealGasReactor::setThermoMgr: Incompatible phase type provided") ∧
    setThermoMgr rEx thEx = ({ rEx with thermo := some thEx }, Except.ok ()) :=
  ⟨(C2_thermo_gate rEx { thEx with typeTag := "Surface" }).1 (by decide),
   (C2_thermo_gate rEx thEx).2 rfl⟩

/-- C7: for every gas species name `s`,
`componentName (componentIndex s) = s`; the reserved names mass, volume and
temperature map to 0, 1, 2 when no species shadows them (a species-name
match takes precedence); any other name maps to the `npos` sentinel. -/
theorem C7_component_naming (r : Reactor) (hn : r.nsp = r.speciesNames.length)
    (hlen : r.speciesNames.length < npos) :
    (∀ s ∈ r.speciesNames, componentName r (componentIndex r s) = s) ∧
    ("mass" ∉ r.speciesNames → componentIndex r "mass" = 0) ∧
    ("volume" ∉ r.speciesNames → componentIndex r "volume" = 1) ∧
    ("temperature" ∉ r.speciesNames → componentIndex r "temperature" = 2) ∧
    (∀ nm, nm ∉ r.speciesNames → nm ≠ "mass" → nm ≠ "volume" →
      nm ≠ "temperature" → componentIndex r nm = npos) := by
  refine ⟨?_, ?_, ?_, ?_, ?_⟩
  · intro s hs
    have hidx : r.speciesNames.indexOf s < r.speciesNames.length :=
      List.indexOf_lt_length.mpr hs
    have hk : speciesIndex r s = r.speciesNames.indexOf s := by
      simp [speciesIndex, hs]
    have hne : speciesIndex r s ≠ npos := by
      rw [hk]; exact Nat.ne_of_lt (lt_trans hidx hlen)
    have hci : componentIndex r s = r.speciesNames.indexOf s + 3 := by
      simp only [componentIndex]
      rw [if_pos hne, hk]
    rw [hci, componentName, if_neg (by omega), baseComponentName,
      if_pos (by constructor <;> omega)]
    have : r.speciesNames.indexOf s + 3 - 3 = r.speciesNames.indexOf s := by omega
    rw [this, List.getD_eq_getElem _ _ hidx]
    simpa using List.indexOf_get (a := s) (l := r.speciesNames) hidx
  · intro h
    simp [componentIndex, speciesIndex, h]
  · intro h
    simp [componentIndex, speciesIndex, h]
  · intro h
    simp [componentIndex, speciesIndex, h]
  · intro nm h h1 h2 h3
    simp [componentIndex, speciesIndex, h, h1, h2, h3]

/-- Witness for C7 on the concrete two-species reactor. -/
theorem C7_component_naming_witness :
    componentName rEx (componentIndex rEx "O2") = "O2" ∧
    componentIndex rEx "mass" = 0 ∧ componentIndex rEx "volume" = 1 ∧
    componentIndex rEx "temperature" = 2 ∧ componentIndex rEx "argon" = npos :=
  have h := C7_component_naming rEx rfl (by decide)
  ⟨h.1 "O2" (by decide), h.2.1 (by decide), h.2.2.1 (by decide),
   h.2.2.2.1 (by decide),
   h.2.2.2.2 "argon" (by decide) (by decide) (by decide) (by decide)⟩

/-- C9 (code bug): the `dcvRdT` accumulation of `evalJacEqs` weights species
k by `y[start + k]` — for low k these are the mass, volume and temperature
slots — where the packed layout puts species k's mass fraction at
`y[start + 3 + k]`: at a state vector with 10 in the mass slot and
mass fraction 7, the code's sum is 10 while the mass-fraction-weighted sum
the spec describes is 7. -/
theorem C9_dcvRdT_offset :
    dcvRdTsum [1] [1] (fun i => if i = 0 then 10 else if i = 3 then 7 else 0) 0 1 = 10 ∧
    dcvRdTsumSpec [1] [1] (fun i => if i = 0 then 10 else if i = 3 then 7 else 0) 0 1 = 7 := by
  have h1 : List.range 1 = [0] := rfl
  constructor <;> norm_num [dcvRdTsum, dcvRdTsumSpec, h1]

/-- C10: `evalEqs` never reads the state-vector argument `y`; two calls on
the same reactor with the same time and parameters but different `y` produce
identical results (the derivatives come from the state cached by the last
`updateState`). -/
theorem C10_y_independent (r : Reactor) (time : ℚ) (y1 y2 params : List ℚ) :
    evalEqs r time y1 params = evalEqs r time y2 params := rfl

/-- C1 counterexample: on a reactor whose kinetics production-rate query
fails, `evalEqs` propagates the error with the sensitivity perturbation
still applied — the straight-line source only reverts it at the end of the
success path — so after this failed call the parameters are not in their
unperturbed state. -/
theorem C1_leak_counterexample :
    (evalEqs { rEx with kin := kinFail } 0 [] []).1.sensApplied = true ∧
    (evalEqs { rEx with kin := kinFail } 0 [] []).2 = Except.error "kinetics failure" := by
  constructor <;> rfl

/-- C1 (amended): the sensitivity perturbation applied at the start of
`evalEqs` is reverted on the successful exit path: after every `evalEqs`
call that returns a derivative vector, the parameters are in their
unperturbed state.  (On a failing downstream call the error propagates with
the perturbation still applied; see the counterexample.) -/
theorem C1_sens_reverted_on_success (r : Reactor) (time : ℚ) (y params d : List ℚ)
    (h : (evalEqs r time y params).2 = Except.ok d) :
    (evalEqs r time y params).1.sensApplied = false := by
  revert h
  unfold evalEqs
  rcases hth : r.thermo with _ | th <;>
    dsimp only [applySensitivity, resetSensitivity, ThermoPhase.restoreState,
      evalWalls, evalSurfaces]
  · intro h; simp at h
  · repeat' split
    all_goals intro h
    all_goals first | rfl | simp at h

/-- Witness for C1: on the fixture reactor `evalEqs` succeeds and the
perturbation is indeed reverted afterwards. -/
theorem C1_sens_reverted_on_success_witness :
    (evalEqs rEx 0 [] []).1.sensApplied = false :=
  C1_sens_reverted_on_success rEx 0 [] [] [0, 0, 0, 0, 0] (by
    norm_num [evalEqs, rEx, thEx, applySensitivity, resetSensitivity,
      ThermoPhase.restoreState, evalWalls, evalSurfaces, outletLoop, inletLoop,
      List.range_succ])

/-- A reactor with homogeneous chemistry disabled, the energy equation off,
and a nonzero production-rate scratch buffer left over from earlier use. -/
def rC6 : Reactor := { rEx with chem := false, energy := false, wdot := [5, 0] }

/-- The same reactor with chemistry enabled and a kinetics evaluator that
reports exactly the current production-rate scratch-buffer contents. -/
def withBufferKinetics (r : Reactor) : Reactor :=
  { r with
    chem := true,
    kin := { getNetProductionRates := Except.ok r.wdot,
             getNetProductionRateTDerivatives := r.kin.getNetProductionRateTDerivatives } }

/-- C6 counterexample: with chemistry disabled, `evalEqs` does not treat the
homogeneous production rates as zero — it uses the prior contents of the
`m_wdot` scratch buffer.  Two reactors identical except for that buffer
(5 vs 0 for species 0) give species-0 mass-fraction derivatives 10 vs 0. -/
theorem C6_buffer_counterexample :
    (evalEqs rC6 0 [] []).2 = Except.ok [0, 0, 0, 10, 0] ∧
    (evalEqs { rC6 with wdot := [0, 0] } 0 [] []).2 = Except.ok [0, 0, 0, 0, 0] := by
  constructor <;>
    norm_num [evalEqs, rC6, rEx, thEx, applySensitivity, resetSensitivity,
      ThermoPhase.restoreState, evalWalls, evalSurfaces, outletLoop, inletLoop,
      List.range_succ]

/-- C6 (amended): when homogeneous chemistry is disabled, `evalEqs` skips the
kinetics query and uses the current contents of the production-rate scratch
buffer as the homogeneous rates: it computes exactly the derivative vector of
the same reactor with chemistry enabled and a kinetics evaluator reporting
the buffer contents.  (The contributions are therefore zero only when the
buffer is zero, as it is after initialization if nothing else wrote it.) -/
theorem C6_chem_disabled_uses_buffer (r : Reactor) (time : ℚ) (y params : List ℚ)
    (h : r.chem = false) :
    (evalEqs r time y params).2 = (evalEqs (withBufferKinetics r) time y params).2 := by
  unfold evalEqs
  dsimp only [withBufferKinetics, applySensitivity, resetSensitivity,
    ThermoPhase.restoreState, evalWalls, evalSurfaces]
  rcases hth : r.thermo with _ | th
  · rfl
  · rw [h, if_neg Bool.false_ne_true, if_pos rfl]
    dsimp only
    repeat' split
    all_goals rfl

/-- Witness for C6 (amended) at the counterexample reactor. -/
theorem C6_chem_disabled_uses_buffer_witness :
    (evalEqs rC6 0 [] []).2 = (evalEqs (withBufferKinetics rC6) 0 [] []).2 :=
  C6_chem_disabled_uses_buffer rC6 0 [] [] rfl

/-- C3: `getState` fails (and produces no vector) exactly when no property
evaluator is attached; with one attached it succeeds with
`[density × volume, volume, temperature] ++ mass fractions ++` the walls'
initial surface coverages in registration order. -/
theorem C3_getState_layout (r : Reactor) :
    (r.thermo = none →
      getState r = (r, Except.error "getState: Error: reactor is empty.")) ∧
    (∀ th, r.thermo = some th →
      getState r =
        ({ r with thermo := some (th.restoreState r.state),
                  mass := r.state.density * r.vol },
         Except.ok ((r.state.density * r.vol :: r.vol :: r.state.temperature ::
            r.state.massFractions) ++ getSurfaceInitialConditions r))) := by
  constructor
  · intro h
    simp [getState, h]
  · intro th h
    simp [getState, h, ThermoPhase.restoreState]

/-- C4: for a reactor with an attached property evaluator in an arbitrary
valid state (positive mass and volume, species count matching the stored
composition), `getState` followed by `updateState` on the vector it produced
reproduces the same density, temperature and mass-fraction composition in
the property evaluator. -/
theorem C4_roundtrip (r : Reactor) (th : ThermoPhase) (hth : r.thermo = some th)
    (hv : 0 < r.vol) (hm : 0 < r.state.density * r.vol)
    (hn : r.nsp = r.state.massFractions.length) (y : List ℚ)
    (hy : (getState r).2 = Except.ok y) :
    ((updateState (getState r).1 y).thermo).map (fun t => t.state.density)
        = some r.state.density ∧
    ((updateState (getState r).1 y).thermo).map (fun t => t.state.temperature)
        = some r.state.temperature ∧
    ((updateState (getState r).1 y).thermo).map (fun t => t.state.massFractions)
        = some r.state.massFractions := by
  have h1 : getState r =
      ({ r with thermo := some (th.restoreState r.state), mass := r.state.density * r.vol },
       Except.ok ((r.state.density * r.vol :: r.vol :: r.state.temperature ::
          r.state.massFractions) ++ getSurfaceInitialConditions r)) := by
    simp [getState, hth, ThermoPhase.restoreState]
  rw [h1] at hy
  simp only [Except.ok.injEq] at hy
  subst hy
  rw [h1]
  unfold updateState
  dsimp only [ThermoPhase.restoreState, ThermoPhase.setMassFractions_NoNorm,
    ThermoPhase.setState_TR]
  simp only [List.cons_append, List.getD_cons_zero, List.getD_cons_succ,
    List.drop_succ_cons, List.drop_zero, Option.map_some]
  rw [List.take_left' hn.symm]
  refine ⟨?_, rfl, rfl⟩
  rw [mul_div_cancel_right₀ _ (ne_of_gt hv)]
  rfl

/-- Witness for C4 on the concrete fixture: the round trip reproduces
density 2, temperature 300 and composition `[1/2, 1/2]`. -/
theorem C4_roundtrip_witness :
    ((updateState (getState rEx).1 [2, 1, 300, 1/2, 1/2]).thermo).map
        (fun t => t.state.density) = some 2 ∧
    ((updateState (getState rEx).1 [2, 1, 300, 1/2, 1/2]).thermo).map
        (fun t => t.state.temperature) = some 300 ∧
    ((updateState (getState rEx).1 [2, 1, 300, 1/2, 1/2]).thermo).map
        (fun t => t.state.massFractions) = some [1/2, 1/2] :=
  C4_roundtrip rEx thEx rfl (by norm_num [rEx]) (by norm_num [rEx]) rfl
    [2, 1, 300, 1/2, 1/2]
    (by norm_num [getState, rEx, thEx, ThermoPhase.restoreState,
      getSurfaceInitialConditions])

/-- C5: for a reactor with an attached property evaluator, zero inlets,
zero outlets, zero walls (so all heterogeneous production rates vanish),
and all homogeneous net production rates zero, `evalEqs` succeeds with
`ydot[0] = 0` and `ydot[n+3] = 0` for every gas species index `n < K`. -/
theorem C5_no_flow_conservation (r : Reactor) (time : ℚ) (y params : List ℚ)
    (th : ThermoPhase) (hth : r.thermo = some th)
    (hin : r.inlet = []) (hout : r.outlet = []) (hw : r.walls = [])
    (w : List ℚ)
    (hchem : (if r.chem then r.kin.getNetProductionRates else Except.ok r.wdot)
      = Except.ok w)
    (hwz : ∀ n, w.getD n 0 = 0) :
    (evalEqs r time y params).2.isOk = true ∧
    ((evalEqs r time y params).2.toOption.getD []).getD 0 0 = 0 ∧
    ∀ n, n < r.nsp →
      ((evalEqs r time y params).2.toOption.getD []).getD (n + 3) 0 = 0 := by
  unfold evalEqs
  dsimp only [applySensitivity, resetSensitivity, ThermoPhase.restoreState,
    evalWalls, evalSurfaces]
  rw [hth]
  dsimp only
  rw [hin, hout, hw, hchem]
  dsimp only [outletLoop, inletLoop, Except.toOption, Except.isOk, Option.getD]
  refine ⟨rfl, ?_, ?_⟩
  · rfl
  · intro n hn
    have h3 : n + 3 = n.succ.succ.succ := rfl
    rw [h3]
    simp only [List.map_nil, List.sum_nil, List.flatten_nil, List.foldl_nil,
      List.append_nil, Nat.succ_eq_add_one, List.getD_cons_succ]
    rw [List.getD_eq_getElem _ _ (by simpa using hn)]
    simp only [List.getElem_map, List.getElem_range]
    rw [hwz]
    have hrep : (List.replicate r.nsp (0:ℚ)).getD n 0 = 0 := by
      rcases lt_or_ge n r.nsp with hlt | hge
      · rw [List.getD_eq_getElem _ _ (by simpa using hlt)]
        simp
      · rw [List.getD_eq_default _ _ (by simpa using hge)]
    rw [hrep]
    ring

/-- Witness for C5 on the concrete fixture (no devices, no walls, zero
rates): the call succeeds and the mass and species derivatives vanish. -/
theorem C5_no_flow_conservation_witness :
    (evalEqs rEx 0 [] []).2.isOk = true ∧
    ((evalEqs rEx 0 [] []).2.toOption.getD []).getD 0 0 = 0 ∧
    ∀ n, n < rEx.nsp →
      ((evalEqs rEx 0 [] []).2.toOption.getD []).getD (n + 3) 0 = 0 :=
  C5_no_flow_conservation rEx 0 [] [] thEx rfl rfl rfl rfl [0, 0] rfl
    (fun n => by rcases n with _ | _ | n <;> rfl)

/-- Entries other than the written one are untouched by a single store. -/
theorem upd_ne (J : ℕ → ℕ → ℚ) (i0 j0 : ℕ) (v : ℚ) (i j : ℕ)
    (h : ¬(i = i0 ∧ j = j0)) : upd J i0 j0 v i j = J i j := if_neg h

/-- Entries outside the written species rows and column are untouched by the
species-row store loop of `evalJacEqs`. -/
theorem foldl_upd_frame (v : ℕ → ℚ) (start col : ℕ) :
    ∀ (l : List ℕ) (J : ℕ → ℕ → ℚ) (i j : ℕ),
      (∀ k ∈ l, ¬(i = start + 3 + k ∧ j = col)) →
      (l.foldl (fun Jc k => upd Jc (start + 3 + k) col (v k)) J) i j = J i j := by
  intro l
  induction l with
  | nil => intro J i j h; rfl
  | cons a as ih =>
    intro J i j h
    rw [List.foldl_cons, ih _ i j (fun k hk => h k (List.mem_cons_of_mem a hk))]
    exact upd_ne J (start + 3 + a) col (v a) i j (h a (List.mem_cons_self a as))

/-- C8: `evalJacEqs` writes only the temperature diagonal entry
`(start+2, start+2)` and the species-row temperature-column entries
`(start+3+k, start+2)` for `k < K`; every other entry of the caller-supplied
Jacobian — in particular the temperature-row/species-column block and the
species/species block — is left unchanged by the call (also on the error
paths, where nothing is written). -/
theorem C8_jacobian_frame (r : Reactor) (time : ℚ) (y : ℕ → ℚ)
    (jac : ℕ → ℕ → ℚ) (start : ℕ) (i j : ℕ)
    (hdiag : ¬(i = start + 2 ∧ j = start + 2))
    (hcol : ∀ k, k < r.nsp → ¬(i = start + 3 + k ∧ j = start + 2)) :
    ((evalJacEqs r time y jac start).1.2) i j = jac i j := by
  unfold evalJacEqs
  rcases hth : r.thermo with _ | th
  · rfl
  · dsimp only
    rcases hk : r.kin.getNetProductionRates with e | wdot
    · rfl
    · dsimp only
      rcases hk2 : r.kin.getNetProductionRateTDerivatives with e | dwdotdT
      · rfl
      · dsimp only
        refine (foldl_upd_frame _ start (start + 2) (List.range r.nsp) _ i j ?_).trans
          (upd_ne jac (start + 2) (start + 2) _ i j hdiag)
        intro k hk
        exact hcol k (List.mem_range.mp hk)

/-- Witness for C8: the (0,0) entry, outside the write set for a reactor at
base offset 0, keeps its prior value. -/
theorem C8_jacobian_frame_witness :
    ((evalJacEqs rEx 0 (fun _ => 0) (fun _ _ => 37) 0).1.2) 0 0 = 37 :=
  C8_jacobian_frame rEx 0 (fun _ => 0) (fun _ _ => 37) 0 0 0
    (by rintro ⟨h, -⟩; exact absurd h (by decide))
    (fun k _ => by rintro ⟨-, h⟩; exact absurd h (by decide))

/-- Witness for C3: the unattached reactor fails; the attached fixture
produces the packed vector `[2, 1, 300, 1/2, 1/2]`. -/
theorem C3_getState_layout_witness :
    getState { rEx with thermo := none } =
      ({ rEx with thermo := none }, Except.error "getState: Error: reactor is empty.") ∧
    (getState rEx).2 = Except.ok [2, 1, 300, 1/2, 1/2] := by
  refine ⟨(C3_getState_layout { rEx with thermo := none }).1 rfl, ?_⟩
  rw [(C3_getState_layout rEx).2 thEx rfl]
  norm_num [rEx, getSurfaceInitialConditions]

end Cantera
